import Mathlib

/-!
Verification of the Seoul Vagabonds recommender.

This file gives a shallow embedding, in Lean 4, of the parts of
`src/seoul_oa21050.py` and `src/app.py` that the specification talks
about, and proves (or refutes) the frozen claims about them.

Python values appearing in raw API records are modelled by the closed
inductive `PyVal` (strings, integers, booleans, `None`); a raw record is
an association list from field names to such values, mirroring a JSON
row.  Python string routines (`strip`, `lower`, membership, the concrete
regular expressions of the source) are modelled by executable functions
on lists of characters.  `hashlib.sha1(...).hexdigest()` is
process-external library code and is abstracted as an explicit function
parameter `sha1hex : String → String`; the claims only ever use the fact
that a hex digest is a non-empty string.  Likewise Python's
process-seeded `hash` and the Mersenne-Twister stream of
`random.Random(seed)` are abstracted as explicit function parameters of
`build_master_pool`.
-/

/-! ## Basic Python-style string helpers (on `List Char`) -/

/-- Python's notion of whitespace for `str.strip` / `\s`, restricted to
the characters that occur in this code base. -/
def pySpace (c : Char) : Bool :=
  c = ' ' || c = '\t' || c = '\n' || c = '\r'

/-- Python `str.strip()` on a character list. -/
def pyStripL (l : List Char) : List Char :=
  ((l.dropWhile pySpace).reverse.dropWhile pySpace).reverse

/-- Python `str.strip()`. -/
def pyStrip (s : String) : String :=
  (pyStripL s.toList).asString

/-- Python `str.lower()` (ASCII case folding; the source only lowercases
ASCII letters in the data it handles). -/
def pyLower (s : String) : String :=
  (s.toList.map Char.toLower).asString

/-- Does the pattern occur as a contiguous run inside the character list?
Models Python's `pat in s` substring test. -/
def containsSub (pat : List Char) : List Char → Bool
  | [] => pat.isEmpty
  | c :: t => pat.isPrefixOf (c :: t) || containsSub pat t

/-- Python `pat in s` on strings. -/
def strContains (s pat : String) : Bool :=
  containsSub pat.toList s.toList

/-- Split a character list at every occurrence of the separator
character (Python `s.split("-")`-style, keeping empty pieces). -/
def splitOnChar (sep : Char) : List Char → List (List Char)
  | [] => [[]]
  | c :: t =>
    let rest := splitOnChar sep t
    if c = sep then [] :: rest
    else
      match rest with
      | [] => [[c]]
      | piece :: more => (c :: piece) :: more

/-- Hangul syllable block, the character class `[가-힣]` of the source's
regular expressions. -/
def isHangulSyl (c : Char) : Bool :=
  0xAC00 ≤ c.toNat && c.toNat ≤ 0xD7A3

/-- Python `re.search(r"[가-힣]", s)` viewed as a Boolean. -/
def hasHangul (s : String) : Bool :=
  s.toList.any isHangulSyl

/-- ASCII lowercase letter, the class `[a-z]`. -/
def isLowerAZ (c : Char) : Bool :=
  'a' ≤ c && c ≤ 'z'

/-- ASCII letter, the class `[A-Za-z]`. -/
def isAlphaAZ (c : Char) : Bool :=
  ('a' ≤ c && c ≤ 'z') || ('A' ≤ c && c ≤ 'Z')

/-- ASCII digit, the class `[0-9]`. -/
def isDigit09 (c : Char) : Bool :=
  '0' ≤ c && c ≤ '9'

/-- ASCII letter or digit, the class `[A-Za-z0-9]`. -/
def isAlnumAZ09 (c : Char) : Bool :=
  isAlphaAZ c || isDigit09 c

/-! ## seoul_oa21050.py : name rejection predicates

Faithful translations of `is_language_code` and `is_numeric_code`
(src/seoul_oa21050.py lines 26-45).  Note that the source writes the
numeric branch of `is_numeric_code` as `re.fullmatch(r"\\d+$", s)`:
inside a raw Python string `\\d` is a backslash character followed by
the letter `d`, so the compiled regular expression matches a literal
backslash followed by one or more letters `d` — not a digit string.
The embedding reproduces the pattern exactly as compiled. -/

/-- The regular expression `\\d+$` as the source compiles it: one literal
backslash, then one or more letters `d`, then end of string. -/
def matchesBackslashDPlus (l : List Char) : Bool :=
  match l with
  | '\\' :: rest => !rest.isEmpty && rest.all (· = 'd')
  | _ => false

/-- Full match for `[a-z]{2,3}`. -/
def matchesLangCore (l : List Char) : Bool :=
  (l.length = 2 || l.length = 3) && l.all isLowerAZ

/-- Full match for `[A-Za-z0-9]{2,8}` (a BCP-47 style subtag). -/
def matchesSubtag (l : List Char) : Bool :=
  2 ≤ l.length && l.length ≤ 8 && l.all isAlnumAZ09

/-- Full match for `[a-z]{2,3}(-[A-Za-z0-9]{2,8})+$`.  Since subtag
characters never include `-`, splitting at `-` is an exact decomposition
of the pattern. -/
def matchesLangWithSubtags (l : List Char) : Bool :=
  match splitOnChar '-' l with
  | [] => false
  | [_] => false
  | core :: subtags => matchesLangCore core && subtags.all matchesSubtag

/-- Translation of `is_language_code` (src/seoul_oa21050.py lines 26-36). -/
def is_language_code (s : String) : Bool :=
  if s = "" then false
  else
    let l := pyStripL s.toList
    if matchesLangCore l then true
    else if matchesLangWithSubtags l then true
    else if l.length ≤ 3 && !l.isEmpty && l.all isAlphaAZ then true
    else false

/-- Translation of `is_numeric_code` (src/seoul_oa21050.py lines 39-45).
The first branch is the source's `re.fullmatch(r"\\d+$", s)`, which
matches a literal backslash followed by letters `d` (see the section
comment); the second is `len(s) <= 6` with `re.fullmatch(r"[A-Za-z0-9]+", s)`. -/
def is_numeric_code (s : String) : Bool :=
  let l := pyStripL s.toList
  if matchesBackslashDPlus l then true
  else if l.length ≤ 6 && !l.isEmpty && l.all isAlnumAZ09 then true
  else false

/-- The backslash-then-d piece `\\d{2,}` of `_looks_like_address`: a
literal backslash followed by at least two letters `d`, anywhere in the
list. -/
def containsBackslashDD : List Char → Bool
  | '\\' :: 'd' :: 'd' :: _ => true
  | _ :: t => containsBackslashDD t
  | [] => false

/-- Translation of `_looks_like_address` (src/seoul_oa21050.py lines
48-49): `re.search` of the alternation
`(로|길|동|구|구청|번지|\\d{2,}|-dong|-gu|seoul|서울)` with `re.IGNORECASE`.
Case-insensitivity is modelled by lowering the subject first; the Korean
alternatives are unaffected by lowering. -/
def looks_like_address (s : String) : Bool :=
  let t := pyLower s
  strContains t "로" || strContains t "길" || strContains t "동" ||
  strContains t "구" || strContains t "구청" || strContains t "번지" ||
  containsBackslashDD t.toList ||
  strContains t "-dong" || strContains t "-gu" ||
  strContains t "seoul" || strContains t "서울"

/-! ## Raw records and Python values -/

/-- Closed universe of Python values occurring in raw API rows. -/
inductive PyVal where
  | str (s : String)
  | int (n : ℤ)
  | bool (b : Bool)
  | noneV
deriving DecidableEq

/-- Python truthiness of a `PyVal`. -/
def pyTruthy : PyVal → Bool
  | .str s => s ≠ ""
  | .int n => n ≠ 0
  | .bool b => b
  | .noneV => false

/-- Python `str(v)`. -/
def pyToStr : PyVal → String
  | .str s => s
  | .int n => toString n
  | .bool b => if b then "True" else "False"
  | .noneV => "None"

/-- A raw API row: an association list from field names to values
(Python `dict`, iterated in insertion order). -/
def RawRecord : Type := List (String × PyVal)

instance : DecidableEq RawRecord := by
  unfold RawRecord
  infer_instance

/-- Python `d[k]` / `k in d` on a raw row. -/
def lookupRaw (d : RawRecord) (k : String) : Option PyVal :=
  (d.find? (fun kv => kv.1 = k)).map Prod.snd

/-- Translation of `_get_first_value` (src/seoul_oa21050.py lines
123-131).  For each candidate key: an exact-key hit with a truthy value
returns `str(value).strip()`; otherwise every key of the row is scanned
case-insensitively, again requiring a truthy value.  Note the result may
be `""` (a truthy value may strip down to the empty string). -/
def _get_first_value (d : RawRecord) (keys : List String) : Option String :=
  keys.findSome? fun k =>
    let exact :=
      match lookupRaw d k with
      | some v => if pyTruthy v then some (pyStrip (pyToStr v)) else none
      | none => none
    match exact with
    | some r => some r
    | none =>
      d.findSome? fun kv =>
        if pyLower kv.1 = pyLower k && pyTruthy kv.2 then
          some (pyStrip (pyToStr kv.2))
        else none

/-! ## pick_best_name -/

/-- The candidate name keys of `pick_best_name` (src/seoul_oa21050.py
lines 53-68). -/
def keyCandidates : List String :=
  ["NAME", "name", "TITLE", "title", "PLACE_NM", "PLACE_NAME", "POI_NM",
   "TOUR_NM", "SIGHT_NM", "NM", "SUBJECT", "TRRSRT_NM", "TRRSRT_NAME",
   "FACI_NM"]

/-- Translation of `pick_best_name` (src/seoul_oa21050.py lines 52-99).
The `sample_log` parameter of the source only feeds a log message and
never influences the returned name, so it is dropped here.  Stage 1
scans the candidate keys for a non-empty, non-code, Hangul-containing
string value; stage 2 scans all string values of the row, additionally
skipping address-looking strings; the last resort is a constant name
built from `sha1("unknown")`. -/
def pick_best_name (sha1hex : String → String) (raw : RawRecord) : String :=
  let fromKeys := keyCandidates.findSome? fun k =>
    match lookupRaw raw k with
    | some (PyVal.str s) =>
      let v := pyStrip s
      if v = "" then none
      else if is_language_code v || is_numeric_code v then none
      else if hasHangul v then some v
      else none
    | _ => none
  match fromKeys with
  | some v => v
  | none =>
    let strings := raw.filterMap fun kv =>
      match kv.2 with
      | PyVal.str s => let t := pyStrip s; if t = "" then none else some t
      | _ => none
    let fromAll := strings.findSome? fun v =>
      if is_language_code v || is_numeric_code v then none
      else if looks_like_address v then none
      else if hasHangul v then some v
      else none
    match fromAll with
    | some v => v
    | none => "이름미상-" ++ ((sha1hex "unknown").toList.take 6).asString

/-! ## Coordinate parsing -/

/-- Numeric value of a digit list. -/
def digitsToNat (l : List Char) : Nat :=
  l.foldl (fun a c => a * 10 + (c.toNat - '0'.toNat)) 0

/-- Value of a parsed decimal literal. -/
def pyFloatVal (sign : ℤ) (ip fp : List Char) (ex : ℤ) : ℚ :=
  (sign : ℚ) * ((digitsToNat ip : ℚ) + (digitsToNat fp : ℚ) / (10 : ℚ) ^ fp.length)
    * (10 : ℚ) ^ ex

/-- Parse the exponent tail of a Python float literal (empty, or
`e`/`E` followed by an optionally signed digit string). -/
def parseExpTail (l : List Char) : Option ℤ :=
  match l with
  | [] => some 0
  | 'e' :: t | 'E' :: t =>
    let st : ℤ × List Char :=
      match t with
      | '+' :: r => (1, r)
      | '-' :: r => (-1, r)
      | r => (1, r)
    let ed := st.2.takeWhile isDigit09
    let rest := st.2.dropWhile isDigit09
    if ed.isEmpty || !rest.isEmpty then none
    else some (st.1 * (digitsToNat ed : ℤ))
  | _ => none

/-- Python `float(s)` on decimal literals: optional sign, digits with an
optional decimal point, optional exponent, surrounded by optional
whitespace.  (`inf`, `nan` and digit-group underscores are not modelled;
the data this program parses are plain decimal coordinates.)  Returns
`none` exactly when `float` would raise. -/
def pyFloatOfString (s : String) : Option ℚ :=
  let l := pyStripL s.toList
  let sl : ℤ × List Char :=
    match l with
    | '+' :: t => (1, t)
    | '-' :: t => (-1, t)
    | t => (1, t)
  let ip := sl.2.takeWhile isDigit09
  let l2 := sl.2.dropWhile isDigit09
  match l2 with
  | '.' :: t =>
    let fp := t.takeWhile isDigit09
    let l3 := t.dropWhile isDigit09
    if ip.isEmpty && fp.isEmpty then none
    else (parseExpTail l3).map (fun ex => pyFloatVal sl.1 ip fp ex)
  | _ =>
    if ip.isEmpty then none
    else (parseExpTail l2).map (fun ex => pyFloatVal sl.1 ip [] ex)

/-- Translation of `_parse_float` (src/seoul_oa21050.py lines 188-192):
`float(str(v).strip())`, with `None` on any failure.  The argument comes
from `_get_first_value`, so it is an optional string; `str(None)` is the
literal `"None"`, which `float` rejects. -/
def _parse_float (v : Option String) : Option ℚ :=
  match v with
  | some s => pyFloatOfString (pyStrip s)
  | none => pyFloatOfString (pyStrip "None")

/-! ## District extraction -/

/-- Length of the leading run of characters satisfying `p`. -/
def countLeading (p : Char → Bool) : List Char → Nat
  | [] => 0
  | c :: t => if p c then countLeading p t + 1 else 0

/-- Try to match exactly `k` Hangul characters followed by the literal
character `x` at the head of the list; on success return the whole
match (run plus `x`). -/
def hangulRunThen (x : Char) (l : List Char) (k : Nat) : Option (List Char) :=
  let run := l.take k
  if run.length = k && run.all isHangulSyl then
    match l.drop k with
    | c :: _ => if c = x then some (run ++ [x]) else none
    | [] => none
  else none

/-- Greedy match of `[가-힣]{2,4}x` anchored at the head: lengths 4, 3, 2
are tried in this order, as a backtracking regex engine does. -/
def hangulGroupAt (x : Char) (l : List Char) : Option (List Char) :=
  (hangulRunThen x l 4).orElse fun _ =>
    (hangulRunThen x l 3).orElse fun _ => hangulRunThen x l 2

/-- `re.search` of `([가-힣]{2,4}x)`: leftmost start position wins. -/
def searchHangulGroup (x : Char) : List Char → Option String
  | [] => none
  | c :: t =>
    match hangulGroupAt x (c :: t) with
    | some g => some g.asString
    | none => searchHangulGroup x t

/-- Greedy group length search: the largest `g ≥ 1` not exceeding the
given bound such that the suffix pattern starts right after the first
`g` characters. -/
def tryGroupLen (suffix : List Char) (l : List Char) : Nat → Option (List Char)
  | 0 => none
  | g + 1 =>
    if suffix.isPrefixOf (l.drop (g + 1)) then some (l.take (g + 1))
    else tryGroupLen suffix l g

/-- `re.search` of `(C+)suffix` for a character class `C`: at each start
position whose character is in the class, the group is the longest run
prefix followed immediately by the literal suffix. -/
def searchClassSuffix (isC : Char → Bool) (suffix : List Char) :
    List Char → Option String
  | [] => none
  | c :: t =>
    match
      (if isC c then tryGroupLen suffix (c :: t) (countLeading isC (c :: t))
       else none) with
    | some g => some g.asString
    | none => searchClassSuffix isC suffix t

/-- The English-to-Korean district table of `_extract_gu`
(src/seoul_oa21050.py lines 206-232), in source order. -/
def engGuMap : List (String × String) :=
  [("Jongno", "종로구"), ("Jung", "중구"), ("Yongsan", "용산구"),
   ("Seongdong", "성동구"), ("Gwangjin", "광진구"), ("Dongdaemun", "동대문구"),
   ("Jungnang", "중랑구"), ("Seongbuk", "성북구"), ("Gangbuk", "강북구"),
   ("Dobong", "도봉구"), ("Nowon", "노원구"), ("Eunpyeong", "은평구"),
   ("Seodaemun", "서대문구"), ("Mapo", "마포구"), ("Yangcheon", "양천구"),
   ("Gangseo", "강서구"), ("Guro", "구로구"), ("Geumcheon", "금천구"),
   ("Yeongdeungpo", "영등포구"), ("Dongjak", "동작구"), ("Gwanak", "관악구"),
   ("Seocho", "서초구"), ("Gangnam", "강남구"), ("Songpa", "송파구"),
   ("Gangdong", "강동구")]

/-- The hanja district table of `_extract_gu` (src/seoul_oa21050.py
lines 235-244), in source order. -/
def cnGuMap : List (String × String) :=
  [("江南區", "강남구"), ("瑞草區", "서초구"), ("鐘路區", "종로구"),
   ("中區", "중구"), ("麻浦區", "마포구"), ("龍山區", "용산구"),
   ("松坡區", "송파구"), ("永登浦區", "영등포구")]

/-- Translation of `_extract_gu` on a (non-empty) address string
(src/seoul_oa21050.py lines 195-248): first `([가-힣]{2,4}구)`, then
`([A-Za-z\-]+)-gu` with the English table (falling back to `eng ++ "-gu"`),
then hanja substrings. -/
def extract_gu_str (address : String) : Option String :=
  match searchHangulGroup '구' address.toList with
  | some g => some g
  | none =>
    match
      searchClassSuffix (fun c => isAlphaAZ c || c = '-') "-gu".toList
        address.toList with
    | some eng =>
      some ((((engGuMap.find? (fun kv => kv.1 = eng)).map Prod.snd)).getD
        (eng ++ "-gu"))
    | none =>
      cnGuMap.findSome? fun kv =>
        if strContains address kv.1 then some kv.2 else none

/-- `_extract_gu` with its `if not address: return None` guard. -/
def extract_gu (address : Option String) : Option String :=
  match address with
  | some a => if a = "" then none else extract_gu_str a
  | none => none

/-! ## normalize_row -/

/-- Normalized place record, the fixed key set produced by
`normalize_row` (src/seoul_oa21050.py lines 283-294).  Each field is the
value stored under the corresponding dictionary key, so the key `"area"`
is present in every record by construction. -/
structure Place where
  place_id : String
  name : String
  area : String
  address : Option String
  gu : Option String
  tags : List String
  description : Option String
  homepage_url : Option String
  lat : Option ℚ
  lng : Option ℚ
deriving DecidableEq

/-- Python `a or b` on optional strings (`""` and `None` are falsy). -/
def pyOrOptStr (a b : Option String) : Option String :=
  match a with
  | some s => if s = "" then b else some s
  | none => b

/-- The chained `x or y or ... or default` used for `area`: the first
truthy (non-`None`, non-empty) link wins, else the default. -/
def firstNonEmpty : List (Option String) → String → String
  | [], d => d
  | some s :: t, d => if s = "" then firstNonEmpty t d else s
  | none :: t, d => firstNonEmpty t d

/-- Tag splitting of `normalize_row` (src/seoul_oa21050.py line 265):
`val.replace("/", ",").split(",")`, each piece stripped, empties
dropped. -/
def splitTags (val : String) : List String :=
  let repl := val.toList.map (fun c => if c = '/' then ',' else c)
  (splitOnChar ',' repl).filterMap fun piece =>
    let t := pyStripL piece
    if t.isEmpty then none else some t.asString

/-- Translation of `normalize_row` (src/seoul_oa21050.py lines 251-294).
Total by construction: every raw row yields a `Place`.  `sha1hex`
abstracts `hashlib.sha1(...).hexdigest()`. -/
def normalize_row (sha1hex : String → String) (raw : RawRecord) : Place :=
  let name := pick_best_name sha1hex raw
  let address := _get_first_value raw
    ["ADDR", "ADDR_1", "ADDR1", "ADDRESS", "ROAD_ADDR", "ADDR_NM"]
  let desc := _get_first_value raw ["DESC", "DESCRIPTION", "CONTENT", "DTL_CN"]
  let url := _get_first_value raw ["HOMEPAGE", "URL", "HOMEPAGE_URL", "HMPG_URL"]
  let gu := pyOrOptStr
    (_get_first_value raw ["GU_NM", "GU", "SGG_NM", "SIGUNGU", "SIGUNGU_NM"])
    (extract_gu address)
  let lat := _parse_float (_get_first_value raw ["LAT", "LATITUDE", "Y", "MAPY"])
  let lng := _parse_float
    (_get_first_value raw ["LNG", "LON", "LONGITUDE", "X", "MAPX"])
  let tags := ["THEMA", "THEME", "TAG", "TAGS", "CATEGORY", "CLASS"].foldl
    (fun acc key =>
      match _get_first_value raw [key] with
      | some v => if v ≠ "" then acc ++ splitTags v else acc
      | none => acc) []
  let pid0 := _get_first_value raw
    ["ID", "PLACE_ID", "POI_ID", "SEQ", "MNG_NO", "관리번호"]
  let place_id :=
    match pid0 with
    | some s =>
      if s = "" then sha1hex (name ++ "|" ++ address.getD "") else s
    | none => sha1hex (name ++ "|" ++ address.getD "")
  let name := if name = "" then "이름미상-" ++ (place_id.toList.take 6).asString
              else name
  let area := firstNonEmpty
    [_get_first_value raw ["area", "AREA"], gu, extract_gu address] "미분류"
  { place_id := place_id, name := name, area := area, address := address,
    gu := gu, tags := tags, description := desc, homepage_url := url,
    lat := lat, lng := lng }

/-! ## Shared helper lemmas and concrete stand-ins -/

/-- A string with a non-empty literal prefix is non-empty. -/
lemma prefixed_name_ne_empty (x : String) : "이름미상-" ++ x ≠ "" := by
  intro h
  have h2 := congrArg String.data h
  simp [String.data_append] at h2

/-- `firstNonEmpty` never returns the empty string when its default is
non-empty: every successful link is checked non-empty, and the fallback
is the default itself. -/
lemma firstNonEmpty_ne_empty (l : List (Option String)) (d : String)
    (hd : d ≠ "") : firstNonEmpty l d ≠ "" := by
  induction l with
  | nil => exact hd
  | cons a t ih =>
    cases a with
    | none => exact ih
    | some s =>
      by_cases hs : s = ""
      · simp [firstNonEmpty, hs, ih]
      · simp [firstNonEmpty, hs]

/-- Concrete 40-hex-character digest function, used to instantiate the
abstract `sha1hex` parameter in closed statements.  (Only the shape of a
SHA-1 hex digest — a non-empty string — matters to any claim.) -/
def shaStub : String → String :=
  fun _ => "0000000000000000000000000000000000000000"

/-- The concrete digest stand-in never returns the empty string. -/
lemma shaStub_ne_empty (s : String) : shaStub s ≠ "" := by
  unfold shaStub
  decide

/-! ## Claim C4 -/

/-- C4: for every raw record, the normalizer is total (the embedding is
a Lean function, so `normalize_row` returns a `Place` on every input)
and the returned place has a non-empty `name` and a non-empty
`place_id`, provided the SHA-1 hex digest function never returns the
empty string (true of `hashlib.sha1(...).hexdigest()`, which is always
40 characters). -/
theorem normalize_row_total_nonempty (sh : String → String) (raw : RawRecord)
    (hsha : ∀ s, sh s ≠ "") :
    (normalize_row sh raw).name ≠ "" ∧ (normalize_row sh raw).place_id ≠ "" := by
  constructor
  · simp only [normalize_row]
    split
    case _ => exact prefixed_name_ne_empty _
    case _ h => exact h
  · simp only [normalize_row]
    split
    case _ s _ =>
      split
      case _ => exact hsha _
      case _ h => exact h
    case _ => exact hsha _

/-- Witness for C4 at a concrete record and a concrete digest function. -/
theorem normalize_row_total_nonempty_witness :
    (∀ s, shaStub s ≠ "") ∧
    ((normalize_row shaStub [("NAME", PyVal.str "인사동")]).name ≠ "" ∧
     (normalize_row shaStub [("NAME", PyVal.str "인사동")]).place_id ≠ "") :=
  ⟨shaStub_ne_empty,
   normalize_row_total_nonempty shaStub [("NAME", PyVal.str "인사동")]
     shaStub_ne_empty⟩

/-! ## Claim C5 -/

/-- The latitude field candidates of `normalize_row` (line 258). -/
def latKeys : List String := ["LAT", "LATITUDE", "Y", "MAPY"]

/-- The longitude field candidates of `normalize_row` (line 259). -/
def lngKeys : List String := ["LNG", "LON", "LONGITUDE", "X", "MAPX"]

/-- C5 counterexample: the claim "lat and lng are either both present or
both absent" fails on the concrete record
`{"LAT": "37.5", "LNG": "abc"}`: the latitude parses and is stored while
the longitude fails to parse and is left absent, so the result is
half-populated. -/
theorem normalize_row_coords_half_populated :
    ¬(((normalize_row shaStub
          [("LAT", PyVal.str "37.5"), ("LNG", PyVal.str "abc")]).lat.isSome ∧
       (normalize_row shaStub
          [("LAT", PyVal.str "37.5"), ("LNG", PyVal.str "abc")]).lng.isSome) ∨
      ((normalize_row shaStub
          [("LAT", PyVal.str "37.5"), ("LNG", PyVal.str "abc")]).lat = none ∧
       (normalize_row shaStub
          [("LAT", PyVal.str "37.5"), ("LNG", PyVal.str "abc")]).lng = none)) := by
  decide

/-- C5 (amended): each coordinate is populated exactly when its own
candidate field parses as a float, independently of the other; hence the
both-present-or-both-absent invariant holds exactly when the two parses
agree in success.  A float-conversion failure of one coordinate leaves
only that coordinate absent. -/
theorem normalize_row_coords_agree (sh : String → String) (raw : RawRecord)
    (h : (_parse_float (_get_first_value raw latKeys)).isSome =
         (_parse_float (_get_first_value raw lngKeys)).isSome) :
    ((normalize_row sh raw).lat.isSome ∧ (normalize_row sh raw).lng.isSome) ∨
    ((normalize_row sh raw).lat = none ∧ (normalize_row sh raw).lng = none) := by
  have hlat : (normalize_row sh raw).lat =
      _parse_float (_get_first_value raw latKeys) := rfl
  have hlng : (normalize_row sh raw).lng =
      _parse_float (_get_first_value raw lngKeys) := rfl
  rw [hlat, hlng]
  cases hx : _parse_float (_get_first_value raw latKeys) with
  | none =>
    cases hy : _parse_float (_get_first_value raw lngKeys) with
    | none => exact Or.inr ⟨rfl, rfl⟩
    | some v => rw [hx, hy] at h; simp at h
  | some v =>
    cases hy : _parse_float (_get_first_value raw lngKeys) with
    | none => rw [hx, hy] at h; simp at h
    | some w => exact Or.inl ⟨rfl, rfl⟩

/-- Witness for C5 (amended) at a record whose two coordinates both
parse. -/
theorem normalize_row_coords_agree_witness :
    ((_parse_float (_get_first_value
        [("LAT", PyVal.str "37.5"), ("LNG", PyVal.str "127.0")] latKeys)).isSome =
     (_parse_float (_get_first_value
        [("LAT", PyVal.str "37.5"), ("LNG", PyVal.str "127.0")] lngKeys)).isSome) ∧
    (((normalize_row shaStub
        [("LAT", PyVal.str "37.5"), ("LNG", PyVal.str "127.0")]).lat.isSome ∧
      (normalize_row shaStub
        [("LAT", PyVal.str "37.5"), ("LNG", PyVal.str "127.0")]).lng.isSome) ∨
     ((normalize_row shaStub
        [("LAT", PyVal.str "37.5"), ("LNG", PyVal.str "127.0")]).lat = none ∧
      (normalize_row shaStub
        [("LAT", PyVal.str "37.5"), ("LNG", PyVal.str "127.0")]).lng = none)) :=
  ⟨by decide,
   normalize_row_coords_agree shaStub
     [("LAT", PyVal.str "37.5"), ("LNG", PyVal.str "127.0")] (by decide)⟩

/-! ## Claim C6 -/

/-- C6: evaluation of the candidate-name rejection predicate
`is_language_code(v) or is_numeric_code(v)` (used by `pick_best_name`).
The four sample inputs of the claim are rejected and `"인사동"` is
accepted, as the claim says; but the numeric-only string `"1234567"` is
NOT rejected, contradicting the claim's "every numeric-only string"
clause: the source's first branch of `is_numeric_code` compiles the
pattern `\\d+$` (a literal backslash followed by letters `d`), which no
digit string matches, and the length-at-most-6 alphanumeric branch does
not cover a 7-digit string. -/
theorem name_rejection_eval :
    (is_language_code "en" || is_numeric_code "en") = true ∧
    (is_language_code "ko-KR" || is_numeric_code "ko-KR") = true ∧
    (is_language_code "12345" || is_numeric_code "12345") = true ∧
    (is_language_code "AB12" || is_numeric_code "AB12") = true ∧
    (is_language_code "인사동" || is_numeric_code "인사동") = false ∧
    (is_language_code "1234567" || is_numeric_code "1234567") = false := by
  decide

/-! ## Claim C10 -/

/-- C10: every normalized record has a non-empty `area` (the `"area"`
key itself is present in every record by the `Place` structure): the
`area` value is the first truthy link of
`raw["area"/"AREA"] or gu or extract_gu(address) or "미분류"`, and the
final fallback `"미분류"` is non-empty, so the application-level
assertion `all("area" in p for p in places)` never fires. -/
theorem normalize_row_area_nonempty (sh : String → String) (raw : RawRecord) :
    (normalize_row sh raw).area ≠ "" := by
  have : (normalize_row sh raw).area = firstNonEmpty
      [_get_first_value raw ["area", "AREA"],
       pyOrOptStr
         (_get_first_value raw ["GU_NM", "GU", "SGG_NM", "SIGUNGU", "SIGUNGU_NM"])
         (extract_gu (_get_first_value raw
           ["ADDR", "ADDR_1", "ADDR1", "ADDRESS", "ROAD_ADDR", "ADDR_NM"])),
       extract_gu (_get_first_value raw
         ["ADDR", "ADDR_1", "ADDR1", "ADDRESS", "ROAD_ADDR", "ADDR_NM"])]
      "미분류" := rfl
  rw [this]
  exact firstNonEmpty_ne_empty _ _ (by decide)

/-! ## app.py : signatures (make_signature) -/

/-- Start location of a participant (src/app.py lines 132-137). -/
structure StartLocation where
  scope : String
  si : String
  gu : String
  dong : String
deriving DecidableEq

/-- A participant (src/app.py lines 139-145). -/
structure PersonInput where
  is_me : Bool
  relationship : String
  taste : String
  purpose : String
  start_location : StartLocation
deriving DecidableEq

/-- Whitespace-run collapsing, `re.sub(r"\s+", " ", s)`: every maximal
whitespace run becomes a single space. -/
def collapseWsGo (prevWs : Bool) : List Char → List Char
  | [] => []
  | c :: t =>
    if pySpace c then
      if prevWs then collapseWsGo true t else ' ' :: collapseWsGo true t
    else c :: collapseWsGo false t

/-- The inner `norm` of `make_signature` (src/app.py lines 162-165):
`(s or "").strip().lower()` followed by `re.sub(r"\s+", " ", s)`. -/
def normText (s : String) : String :=
  (collapseWsGo false ((pyStripL s.toList).map Char.toLower)).asString

/-- JSON string escaping as `json.dumps` performs it with
`ensure_ascii=False`: quote, backslash and control characters are
escaped, everything else (including Hangul) is emitted verbatim. -/
def jsonEscapeChar (c : Char) : List Char :=
  if c = '"' then ['\\', '"']
  else if c = '\\' then ['\\', '\\']
  else if c = '\n' then ['\\', 'n']
  else if c = '\t' then ['\\', 't']
  else if c = '\r' then ['\\', 'r']
  else if c = Char.ofNat 8 then ['\\', 'b']
  else if c = Char.ofNat 12 then ['\\', 'f']
  else if c.toNat < 32 then
    let hexDigit : Nat → Char := fun n =>
      if n < 10 then Char.ofNat ('0'.toNat + n) else Char.ofNat ('a'.toNat + n - 10)
    ['\\', 'u', '0', '0', hexDigit (c.toNat / 16), hexDigit (c.toNat % 16)]
  else [c]

/-- A JSON string literal. -/
def jsonStr (s : String) : String :=
  ("\"".toList ++ (s.toList.map jsonEscapeChar).flatten ++ "\"".toList).asString

/-- Join a list of strings with a separator. -/
def intercalateList (sep : String) : List String → String
  | [] => ""
  | [x] => x
  | x :: y :: t => x ++ sep ++ intercalateList sep (y :: t)

/-- The JSON object serialized for one companion inside `make_signature`
(src/app.py lines 171-185), with keys in sorted order as `sort_keys=True`
emits them.  Note `scope` is passed through verbatim, all other fields
are normalized. -/
def personJson (p : PersonInput) : String :=
  "\x7b\"loc\": \x7b\"dong\": " ++ jsonStr (normText p.start_location.dong) ++
  ", \"gu\": " ++ jsonStr (normText p.start_location.gu) ++
  ", \"scope\": " ++ jsonStr p.start_location.scope ++
  ", \"si\": " ++ jsonStr (normText p.start_location.si) ++
  "\x7d, \"purpose\": " ++ jsonStr (normText p.purpose) ++
  ", \"rel\": " ++ jsonStr (normText p.relationship) ++
  ", \"taste\": " ++ jsonStr (normText p.taste) ++ "\x7d"

/-- Translation of `make_signature` (src/app.py lines 160-187):
`json.dumps(core, ensure_ascii=False, sort_keys=True)` of the `core`
dictionary, with top-level keys in sorted order
(`crowd_pref`, `main_purpose`, `main_taste`, `people`).  `main_taste`
and `main_purpose` pass through `norm`; `crowd_pref` is serialized
verbatim.  Only companions (`not p.is_me`) are serialized. -/
def make_signature (main_taste main_purpose crowd_pref : String)
    (people : List PersonInput) : String :=
  "\x7b\"crowd_pref\": " ++ jsonStr crowd_pref ++
  ", \"main_purpose\": " ++ jsonStr (normText main_purpose) ++
  ", \"main_taste\": " ++ jsonStr (normText main_taste) ++
  ", \"people\": [" ++
  intercalateList ", " ((people.filter (fun p => !p.is_me)).map personJson) ++
  "]\x7d"

/-! ## Claim C7 -/

/-- C7 counterexample: the universal whitespace/case insensitivity fails
in two ways.  First, two tuples whose text fields differ only in
surrounding whitespace of the crowd preference (`" 여유"` versus
`"여유"`) produce different signatures, because `make_signature`
serializes `crowd_pref` verbatim without `norm`.  Second, two tuples
whose purpose differs only in internal whitespace (`"데 이트"` versus
`"데이트"`) also produce different signatures, because `norm` collapses
each internal whitespace run to a single space but does not remove it. -/
theorem make_signature_whitespace_sensitive :
    make_signature "카페" "데이트" " 여유" [] ≠
      make_signature "카페" "데이트" "여유" [] ∧
    make_signature "카페" "데 이트" "여유" [] ≠
      make_signature "카페" "데이트" "여유" [] := by
  constructor
  · decide
  · decide

/-- Norm-equivalence of two participants as `make_signature` serializes
them: `relationship`, `taste`, `purpose`, `si`, `gu`, `dong` agree up to
`norm`, while `scope` — which the source passes through verbatim — is
equal outright. -/
def personNormEq (p q : PersonInput) : Prop :=
  normText p.relationship = normText q.relationship ∧
  normText p.taste = normText q.taste ∧
  normText p.purpose = normText q.purpose ∧
  p.start_location.scope = q.start_location.scope ∧
  normText p.start_location.si = normText q.start_location.si ∧
  normText p.start_location.gu = normText q.start_location.gu ∧
  normText p.start_location.dong = normText q.start_location.dong

instance (p q : PersonInput) : Decidable (personNormEq p q) := by
  unfold personNormEq
  infer_instance

/-- Norm-equivalent participants serialize to the same JSON object. -/
lemma personJson_congr (p q : PersonInput) (h : personNormEq p q) :
    personJson p = personJson q := by
  obtain ⟨hrel, htaste, hpurpose, hscope, hsi, hgu, hdong⟩ := h
  unfold personJson
  rw [hrel, htaste, hpurpose, hscope, hsi, hgu, hdong]

/-- Pointwise norm-equivalent companion lists serialize identically. -/
lemma personJson_map_congr :
    ∀ l1 l2 : List PersonInput, List.Forall₂ personNormEq l1 l2 →
      l1.map personJson = l2.map personJson := by
  intro l1 l2 h
  induction h with
  | nil => rfl
  | cons hpq _ ih => simp [personJson_congr _ _ hpq, ih]

/-- C7 (amended): `make_signature` passes the main taste/purpose and the
companion relationship/taste/purpose/si/gu/dong fields through `norm`
(lowercasing, stripping surrounding whitespace and collapsing each
internal whitespace run to one space) and serializes `crowd_pref` and
the companion `scope` verbatim.  Any two input tuples with the same
crowd preference whose normalized fields — companion fields included —
have equal `norm` images (and whose companion scopes are equal verbatim)
produce identical signatures; as the counterexample shows, differing
surrounding whitespace in `crowd_pref` or removed (rather than
collapsed) internal whitespace in a normalized field changes the output.
In particular the claim's instance
`make_signature("카페", " 데이트 ", "여유", []) =
make_signature("카페", "데이트", "여유", [])` holds. -/
theorem make_signature_norm_congruent (t1 t2 pu1 pu2 c : String)
    (ppl1 ppl2 : List PersonInput)
    (ht : normText t1 = normText t2) (hp : normText pu1 = normText pu2)
    (hppl : List.Forall₂ personNormEq (ppl1.filter (fun p => !p.is_me))
      (ppl2.filter (fun p => !p.is_me))) :
    make_signature t1 pu1 c ppl1 = make_signature t2 pu2 c ppl2 := by
  unfold make_signature
  rw [ht, hp, personJson_map_congr _ _ hppl]

/-- A primary user entry (filtered out of the serialized companions). -/
def witMe : PersonInput :=
  ⟨true, "본인", "카페", "데이트", ⟨"서울 내", "", "", ""⟩⟩

/-- A companion whose taste carries surrounding whitespace. -/
def witCompanion1 : PersonInput :=
  ⟨false, "친구", " 카페 ", "데이트", ⟨"서울 내", "", "마포구", "연남동"⟩⟩

/-- The same companion with the taste already stripped. -/
def witCompanion2 : PersonInput :=
  ⟨false, "친구", "카페", "데이트", ⟨"서울 내", "", "마포구", "연남동"⟩⟩

/-- Witness for C7 (amended): the congruence at a tuple with one
companion whose taste differs only in surrounding whitespace, and the
claim's own named companion-free instance. -/
theorem make_signature_norm_congruent_witness :
    (normText "카페" = normText "카페" ∧ normText " 데이트 " = normText "데이트" ∧
     List.Forall₂ personNormEq
       ([witMe, witCompanion1].filter (fun p => !p.is_me))
       ([witMe, witCompanion2].filter (fun p => !p.is_me))) ∧
    (make_signature "카페" " 데이트 " "여유" [witMe, witCompanion1] =
       make_signature "카페" "데이트" "여유" [witMe, witCompanion2] ∧
     make_signature "카페" " 데이트 " "여유" [] =
       make_signature "카페" "데이트" "여유" []) :=
  ⟨⟨rfl, by decide, List.Forall₂.cons (by decide) List.Forall₂.nil⟩,
   make_signature_norm_congruent "카페" "카페" " 데이트 " "데이트" "여유"
     [witMe, witCompanion1] [witMe, witCompanion2] rfl (by decide)
     (List.Forall₂.cons (by decide) List.Forall₂.nil),
   make_signature_norm_congruent "카페" "카페" " 데이트 " "데이트" "여유" [] []
     rfl (by decide) List.Forall₂.nil⟩

/-! ## app.py : crowd scoring (Claim C9) -/

/-- The three crowd levels (src/app.py line 95). -/
def CROWD_LEVELS : List String := ["여유", "약간 붐빔", "붐빔"]

/-- The crowd-match contribution of `score_area_by_preferences`
(src/app.py lines 806-811): `2.0` on an exact match, otherwise
`max(0.0, 1.5 - 0.7 * dist)` where `dist` is the absolute difference of
the two levels' indices.  `list.index` raises on an unknown level, hence
the `Option`. -/
def crowd_match_score (crowd_now crowd_pref : String) : Option ℚ :=
  if crowd_now = crowd_pref then some 2.0
  else
    match List.findIdx? (fun x => x = crowd_now) CROWD_LEVELS,
          List.findIdx? (fun x => x = crowd_pref) CROWD_LEVELS with
    | some i, some j => some (max 0.0 (1.5 - 0.7 * ((Nat.dist i j : ℚ))))
    | _, _ => none

/-- C9: for levels on the 3-level scale, the crowd-match contribution is
exactly `2.0` on an exact match, exactly `1.5 - 0.7 = 0.8` for a
one-step difference and exactly `1.5 - 1.4 = 0.1` for a two-step
difference (the clamp at `0` never binds on this scale).  Arithmetic is
modelled exactly over `ℚ`. -/
theorem crowd_match_score_values (cn cp : String)
    (hn : cn ∈ CROWD_LEVELS) (hp : cp ∈ CROWD_LEVELS) :
    crowd_match_score cn cp =
      some (if cn = cp then (2.0 : ℚ)
            else if Nat.dist (CROWD_LEVELS.findIdx (fun x => x = cn))
                     (CROWD_LEVELS.findIdx (fun x => x = cp)) = 1
            then 0.8 else 0.1) := by
  simp only [CROWD_LEVELS, List.mem_cons, List.not_mem_nil, or_false] at hn hp
  rcases hn with rfl | rfl | rfl <;> rcases hp with rfl | rfl | rfl <;>
    simp +decide [crowd_match_score, CROWD_LEVELS, List.findIdx,
      List.findIdx.go, Nat.dist] <;> norm_num

/-- Witness for C9 at the two-step pair (여유, 붐빔). -/
theorem crowd_match_score_values_witness :
    ("여유" ∈ CROWD_LEVELS ∧ "붐빔" ∈ CROWD_LEVELS) ∧
    crowd_match_score "여유" "붐빔" =
      some (if "여유" = "붐빔" then (2.0 : ℚ)
            else if Nat.dist (CROWD_LEVELS.findIdx (fun x => x = "여유"))
                     (CROWD_LEVELS.findIdx (fun x => x = "붐빔")) = 1
            then 0.8 else 0.1) :=
  ⟨⟨by decide, by decide⟩,
   crowd_match_score_values "여유" "붐빔" (by decide) (by decide)⟩

/-! ## app.py : recommendation feed protocol

`get_recommendations_from_places` (src/app.py lines 934-1052) operates
on Streamlit session state.  Items of the master pool enter the feed
buffer via `refill` and are consumed by `take`.  `take` and the
relaxation ladder only ever read an item's `place_id` and `area` keys
(`item.get("place_id")`, `item.get("area")`), so the protocol is
modelled over items projected to those two optional fields; in the
source the pool items come from `build_master_pool`. -/

/-- A pool/buffer item as the feed protocol sees it: its `place_id` and
`area` dictionary entries. -/
structure Item where
  pid : Option String
  area : Option String
deriving DecidableEq

/-- The protocol-relevant slice of `st.session_state`
(src/app.py lines 105-126 and 962-969). -/
structure Session where
  recoSignature : String
  seenPlaceIds : List (Option String)
  feedBuffer : List Item
  masterPool : List Item
  cursor : Nat
  poolLimit : Nat
deriving DecidableEq

/-- `RECOMMEND_COUNT` (src/app.py line 35). -/
def RECOMMEND_COUNT : Nat := 4

/-- The `base_limit` default of `get_recommendations_from_places`. -/
def base_limit : Nat := 200

/-- The `max_limit` default of `get_recommendations_from_places`. -/
def max_limit : Nat := 500

/-- The initial session state (src/app.py lines 105-126). -/
def initSession : Session :=
  { recoSignature := "", seenPlaceIds := [], feedBuffer := [],
    masterPool := [], cursor := 0, poolLimit := 0 }

/-- The `refill` loop (src/app.py lines 980-992):
`while cursor < limit and len(feed_buffer) < limit`, appending
`master_pool[cursor]` and advancing the cursor.  The cursor strictly
increases towards `limit`, so the loop runs at most `limit` iterations;
`fuel` is instantiated with `limit` by `refill`. -/
def refillLoop (pool : List Item) (limit : Nat) :
    Nat → Nat → List Item → List Item × Nat
  | 0, cursor, buffer => (buffer, cursor)
  | fuel + 1, cursor, buffer =>
    if cursor < limit ∧ buffer.length < limit then
      refillLoop pool limit fuel (cursor + 1)
        (buffer ++ [pool.getD cursor ⟨none, none⟩])
    else (buffer, cursor)

/-- `refill()` on the session state: `limit = min(pool_limit, len(master_pool))`. -/
def refill (s : Session) : Session :=
  let limit := min s.poolLimit s.masterPool.length
  let r := refillLoop s.masterPool limit limit s.cursor s.feedBuffer
  { s with feedBuffer := r.1, cursor := r.2 }

/-- The `take` loop (src/app.py lines 994-1011): pop the buffer head
while fewer than `count` results; skip items whose `place_id` is in
`seen_place_ids` or whose non-empty `area` already occurred in this
call; accepted items record their `place_id` and `area`.  Returns
(results, remaining buffer, updated seen set). -/
def takeLoop : List Item → Nat → List (Option String) → List String →
    List Item × List Item × List (Option String)
  | buffer, 0, seen, _ => ([], buffer, seen)
  | [], _ + 1, seen, _ => ([], [], seen)
  | item :: rest, c + 1, seen, seenAreas =>
    if item.pid ∈ seen then takeLoop rest (c + 1) seen seenAreas
    else
      let areaName := item.area.getD ""
      if areaName ≠ "" ∧ areaName ∈ seenAreas then
        takeLoop rest (c + 1) seen seenAreas
      else
        let out := takeLoop rest c (item.pid :: seen)
          (if areaName = "" then seenAreas else areaName :: seenAreas)
        (item :: out.1, out.2.1, out.2.2)

/-- `take(count)` on the session state (fresh `seen_areas` per call). -/
def take (count : Nat) (s : Session) : List Item × Session :=
  let r := takeLoop s.feedBuffer count s.seenPlaceIds []
  (r.1, { s with feedBuffer := r.2.1, seenPlaceIds := r.2.2 })

/-- The duplicate-allowing final top-up (src/app.py lines 1028-1033):
append raw master-pool items in order, ignoring `seen_place_ids`, until
`RECOMMEND_COUNT` is reached or the pool (iterated once) is exhausted. -/
def topUp (results : List Item) (pool : List Item) : List Item :=
  pool.foldl
    (fun acc it => if RECOMMEND_COUNT ≤ acc.length then acc else acc ++ [it])
    results

/-- Translation of `get_recommendations_from_places`
(src/app.py lines 934-1052), given the pool that `build_master_pool`
would produce on a signature change.  Returns the results, the updated
session and whether the duplicate-allowing fallback ran (the
`topup relaxation` branch).  The `if not places: return []` guard and
the logging/`is_language_code` warning scan do not affect the returned
items and are omitted. -/
def get_recommendations (sess : Session) (signature : String)
    (rebuiltPool : List Item) : List Item × Session × Bool :=
  let s0 :=
    if sess.recoSignature ≠ signature then
      { recoSignature := signature, seenPlaceIds := [], feedBuffer := [],
        masterPool := rebuiltPool, cursor := 0, poolLimit := base_limit }
    else sess
  let s1 := refill s0
  let r1 := take RECOMMEND_COUNT s1
  let step2 :=
    if r1.1.length < RECOMMEND_COUNT then
      let s3 := refill { r1.2 with
        poolLimit := min max_limit r1.2.masterPool.length }
      let t := take (RECOMMEND_COUNT - r1.1.length) s3
      (r1.1 ++ t.1, t.2)
    else r1
  let step3 :=
    if step2.1.length < RECOMMEND_COUNT then
      let s5 := refill { step2.2 with poolLimit := step2.2.masterPool.length }
      let t := take (RECOMMEND_COUNT - step2.1.length) s5
      (step2.1 ++ t.1, t.2)
    else step2
  if step3.1.length < RECOMMEND_COUNT then
    (topUp step3.1 step3.2.masterPool, step3.2, true)
  else (step3.1, step3.2, false)

/-! ## Claim C1 -/

/-- `takeLoop` on an empty buffer returns no results. -/
lemma takeLoop_nil (count : Nat) (seen : List (Option String))
    (areas : List String) : takeLoop [] count seen areas = ([], [], seen) := by
  cases count <;> simp [takeLoop]

/-- Invariant of the `take` loop: when every buffered item has a
non-empty area, no returned item's area is in the incoming
`seen_areas`, and the returned areas are pairwise distinct. -/
lemma takeLoop_no_seen_area (buffer : List Item) :
    ∀ (count : Nat) (seen : List (Option String)) (seenAreas : List String),
    (∀ it ∈ buffer, it.area.getD "" ≠ "") →
    (∀ r ∈ (takeLoop buffer count seen seenAreas).1,
        r.area.getD "" ∉ seenAreas) ∧
    (takeLoop buffer count seen seenAreas).1.Pairwise
      (fun x y => x.area.getD "" ≠ y.area.getD "") := by
  induction buffer with
  | nil =>
    intro count seen seenAreas _
    cases count <;> simp [takeLoop]
  | cons item rest ih =>
    intro count seen seenAreas hbuf
    have hitem : item.area.getD "" ≠ "" := hbuf item (List.mem_cons_self _ _)
    have hrest : ∀ it ∈ rest, it.area.getD "" ≠ "" :=
      fun it hm => hbuf it (List.mem_cons_of_mem _ hm)
    cases count with
    | zero => simp [takeLoop]
    | succ c =>
      by_cases h1 : item.pid ∈ seen
      · simpa [takeLoop, h1] using ih (c + 1) seen seenAreas hrest
      · by_cases h2 : item.area.getD "" ∈ seenAreas
        · have : item.area.getD "" ≠ "" ∧ item.area.getD "" ∈ seenAreas :=
            ⟨hitem, h2⟩
          simpa [takeLoop, h1, this] using ih (c + 1) seen seenAreas hrest
        · have hcond : ¬(item.area.getD "" ≠ "" ∧ item.area.getD "" ∈ seenAreas) :=
            fun hc => h2 hc.2
          have hres := ih c (item.pid :: seen)
            (item.area.getD "" :: seenAreas) hrest
          constructor
          · intro r hr
            simp only [takeLoop, h1, hcond, if_neg, if_false, hitem] at hr
            rw [List.mem_cons] at hr
            rcases hr with rfl | hr
            · exact h2
            · have := hres.1 r hr
              intro hmem
              exact this (List.mem_cons_of_mem _ hmem)
          · simp only [takeLoop, h1, hcond, if_neg, if_false, hitem]
            rw [List.pairwise_cons]
            constructor
            · intro r hr
              have := hres.1 r hr
              intro heq
              apply this
              rw [← heq]
              exact List.mem_cons_self _ _
            · exact hres.2

/-- C1: within a single `take(n)` call, assuming every buffered item has
a non-empty area (as guaranteed for items admitted to the master pool,
whose `area` is a non-empty Hangul dong name), the returned batch
contains no two items with the same area.  The per-call `seen_areas` set
starts empty on every call, so areas may repeat across separate calls
but never within one batch. -/
theorem take_batch_areas_distinct (count : Nat) (s : Session)
    (h : ∀ it ∈ s.feedBuffer, it.area.getD "" ≠ "") :
    ((take count s).1).Pairwise (fun x y => x.area.getD "" ≠ y.area.getD "") :=
  (takeLoop_no_seen_area s.feedBuffer count s.seenPlaceIds [] h).2

/-- A concrete feed state with a duplicated area in the buffer. -/
def demoFeedSession : Session :=
  ⟨"sig", [], [⟨some "w1", some "인사동"⟩, ⟨some "w2", some "인사동"⟩,
    ⟨some "w3", some "성수"⟩], [], 3, 200⟩

/-- Witness for C1 on a buffer that contains an area twice. -/
theorem take_batch_areas_distinct_witness :
    (∀ it ∈ demoFeedSession.feedBuffer, it.area.getD "" ≠ "") ∧
    ((take 4 demoFeedSession).1).Pairwise
      (fun x y => x.area.getD "" ≠ y.area.getD "") :=
  ⟨by decide, take_batch_areas_distinct 4 demoFeedSession (by decide)⟩

/-! ## Claim C2 -/

/-- C2 counterexample: a master pool of exactly 2 places whose items
share an area.  The run does reach the duplicate-allowing fallback, but
it returns 3 items, not `RECOMMEND_COUNT = 4`: the first `take` accepts
only one of the two same-area items (the second is popped and dropped),
and the final top-up iterates the pool only once, appending 2 more. -/
theorem two_place_pool_short_batch :
    ([⟨some "p1", some "인사동"⟩, ⟨some "p2", some "인사동"⟩] : List Item).length
      = 2 ∧
    (get_recommendations initSession "q"
      [⟨some "p1", some "인사동"⟩, ⟨some "p2", some "인사동"⟩]).2.2 = true ∧
    (get_recommendations initSession "q"
      [⟨some "p1", some "인사동"⟩, ⟨some "p2", some "인사동"⟩]).1.length = 3 ∧
    (get_recommendations initSession "q"
      [⟨some "p1", some "인사동"⟩, ⟨some "p2", some "인사동"⟩]).1.length ≠
      RECOMMEND_COUNT := by
  decide

/-- C2 (amended): for a master pool of exactly 2 places with distinct
`place_id`s that do not share a non-empty area, a run with a fresh
signature reaches the duplicate-allowing fallback and returns exactly 4
items (the two pool items, then both again, duplicates allowed).  If the
two places share a `place_id` or a non-empty area the run still reaches
the fallback but returns only 3 items, because the fallback stops when
the pool — iterated once — is exhausted. -/
theorem two_place_pool_fallback_returns_four (a b : Item)
    (hpid : a.pid ≠ b.pid)
    (harea : b.area.getD "" = "" ∨ b.area.getD "" ≠ a.area.getD "") :
    (get_recommendations initSession "q" [a, b]).1 = [a, b, a, b] ∧
    (get_recommendations initSession "q" [a, b]).2.2 = true := by
  have hpid2 : ¬(b.pid = a.pid) := fun h => hpid h.symm
  have htake : takeLoop [a, b] 4 [] [] = ([a, b], [], [b.pid, a.pid]) := by
    by_cases ha : a.area.getD "" = ""
    · simp [takeLoop, hpid2, ha]
    · rcases harea with hb | hb
      · simp [takeLoop, hpid2, ha, hb]
      · simp [takeLoop, hpid2, ha, hb]
  have hrefill : refill ⟨"q", [], [], [a, b], 0, base_limit⟩ =
      ⟨"q", [], [a, b], [a, b], 2, base_limit⟩ := by
    simp [refill, base_limit, refillLoop, List.getD]
  have htake1 :
      take 4 (⟨"q", [], [a, b], [a, b], 2, base_limit⟩ : Session) =
      ([a, b], ⟨"q", [b.pid, a.pid], [], [a, b], 2, base_limit⟩) := by
    simp [take, htake]
  have hrefill2 : refill ⟨"q", [b.pid, a.pid], [], [a, b], 2, 2⟩ =
      ⟨"q", [b.pid, a.pid], [], [a, b], 2, 2⟩ := by
    simp [refill, refillLoop]
  have htake2 : ∀ n,
      take n (⟨"q", [b.pid, a.pid], [], [a, b], 2, 2⟩ : Session) =
      ([], ⟨"q", [b.pid, a.pid], [], [a, b], 2, 2⟩) := by
    intro n
    simp [take, takeLoop_nil]
  simp [get_recommendations, initSession, hrefill, htake1, hrefill2, htake2,
    topUp, RECOMMEND_COUNT, max_limit]

/-- Witness for C2 (amended) on a pool of two distinct-area places. -/
theorem two_place_pool_fallback_returns_four_witness :
    ((⟨some "p1", some "인사동"⟩ : Item).pid ≠ (⟨some "p2", some "성수"⟩ : Item).pid ∧
     ((⟨some "p2", some "성수"⟩ : Item).area.getD "" = "" ∨
      (⟨some "p2", some "성수"⟩ : Item).area.getD "" ≠
        (⟨some "p1", some "인사동"⟩ : Item).area.getD "")) ∧
    ((get_recommendations initSession "q"
        [⟨some "p1", some "인사동"⟩, ⟨some "p2", some "성수"⟩]).1 =
      [⟨some "p1", some "인사동"⟩, ⟨some "p2", some "성수"⟩,
       ⟨some "p1", some "인사동"⟩, ⟨some "p2", some "성수"⟩] ∧
     (get_recommendations initSession "q"
        [⟨some "p1", some "인사동"⟩, ⟨some "p2", some "성수"⟩]).2.2 = true) :=
  ⟨⟨by decide, by decide⟩,
   two_place_pool_fallback_returns_four _ _ (by decide) (by decide)⟩

/-! ## Claim C3

`rerank_after_dislike` (src/app.py lines 2132-2192) records the selected
area names in `st.session_state.disliked[signature]`, adds the
`place_id`s of currently shown items in those areas, refetches the
places and calls `get_recommendations_from_places` again under the same
signature.  Crucially, neither `take` nor any other part of the
recommendation path ever reads `st.session_state.disliked`; the set only
drives checkbox state in the UI. -/

/-- The disliked-set update of `rerank_after_dislike` (src/app.py lines
2136-2142): union in the selected area names, then the `place_id` of
every last-shown item whose area was selected (when truthy). -/
def updateDisliked (disliked selected : List String) (lastReco : List Item) :
    List String :=
  let d1 := disliked ++ selected
  lastReco.foldl
    (fun acc a =>
      match a.area, a.pid with
      | some ar, some p =>
        if ar ∈ selected ∧ p ≠ "" then acc ++ [p] else acc
      | _, _ => acc) d1

/-- Translation of `rerank_after_dislike` (src/app.py lines 2132-2192):
update the disliked set, then rerun `get_recommendations_from_places`
under the same signature (the master pool is reused, so the
would-be-rebuilt pool argument is the session's own pool).  Returns the
new recommendations, the new session and the updated disliked set; on an
empty selection the function returns early.  The refetch, logging and
crowd-preference recomputation of the source do not affect which items
are returned.  Note that the returned recommendations are computed
without ever consulting the disliked set. -/
def rerank_after_dislike (sess : Session) (disliked : List String)
    (lastReco : List Item) (signature : String) (selected : List String) :
    List Item × Session × List String :=
  if selected.isEmpty then (lastReco, sess, disliked)
  else
    let d := updateDisliked disliked selected lastReco
    let r := get_recommendations sess signature sess.masterPool
    (r.1, r.2.1, d)

/-- A master pool of five places; two of them (`p1`, `p5`) lie in area
"인사동". -/
def poolFive : List Item :=
  [⟨some "p1", some "인사동"⟩, ⟨some "p2", some "삼청동"⟩,
   ⟨some "p3", some "성수"⟩, ⟨some "p4", some "연남"⟩,
   ⟨some "p5", some "인사동"⟩]

/-- First run under a fresh signature: returns `p1 p2 p3 p4` without any
fallback. -/
def firstRun : List Item × Session × Bool :=
  get_recommendations initSession "sig" poolFive

/-- The user marks area "인사동" as disliked and asks for a
re-recommendation under the same signature. -/
def dislikeRerun : List Item × Session × List String :=
  rerank_after_dislike firstRun.2.1 [] firstRun.1 "sig" ["인사동"]

/-- C3: after "인사동" is recorded in the disliked set (together with the
shown place `p1` of that area), the very next run under the same
signature still returns an item of area "인사동" (the unseen `p5`) and,
through the duplicate-allowing top-up, the disliked `place_id` `p1`
itself — the recommendation path never consults the disliked set, so
the claimed exclusion does not hold. -/
theorem disliked_area_reappears :
    "인사동" ∈ dislikeRerun.2.2 ∧ "p1" ∈ dislikeRerun.2.2 ∧
    dislikeRerun.1.any (fun it => it.area = some "인사동") = true ∧
    dislikeRerun.1.any (fun it => it.pid = some "p1") = true := by
  decide

/-! ## app.py : master pool construction (Claim C8) -/

/-- Python's `\w` word-character class restricted to the alphabets this
application handles (ASCII letters, digits, underscore, Hangul). -/
def pyIsWordChar (c : Char) : Bool :=
  isAlphaAZ c || isDigit09 c || c = '_' || isHangulSyl c

/-- Python `text.split()`: split on whitespace runs, no empty tokens. -/
def splitWsAux : List Char → List Char → List (List Char)
  | cur, [] => if cur.isEmpty then [] else [cur.reverse]
  | cur, c :: t =>
    if pySpace c then
      if cur.isEmpty then splitWsAux [] t else cur.reverse :: splitWsAux [] t
    else splitWsAux (c :: cur) t

/-- Python `text.split()`. -/
def splitWs (l : List Char) : List (List Char) :=
  splitWsAux [] l

/-- Translation of `tokenize_korean_keywords` (src/app.py lines
664-671): non-word characters are replaced by spaces
(`re.sub(r"[^\w\s가-힣]", " ", text)`), the text is split on whitespace,
tokens are lowercased, and tokens shorter than 2 characters are
dropped. -/
def tokenize_korean_keywords (text : String) : List String :=
  if text = "" then []
  else
    let cleaned := text.toList.map
      (fun c => if pyIsWordChar c || pySpace c then c else ' ')
    let toks := (splitWs cleaned).map
      (fun t => (t.map Char.toLower).asString)
    toks.filter (fun t => 2 ≤ t.length)

/-- Translation of `is_korean_text` (src/app.py lines 702-705). -/
def is_korean_text (text : String) : Bool :=
  if text = "" then false else hasHangul text

/-- Translation of `is_excluded_place` (src/app.py lines 708-710):
`"안녕인사동" in f"{name} {address}".strip()`. -/
def is_excluded_place (name address : String) : Bool :=
  strContains (pyStrip (name ++ " " ++ address)) "안녕인사동"

/-- Translation of `extract_dong` (src/app.py lines 759-768): first
`([가-힣]{2,4}동)`, then `([A-Za-z\\-]+)-dong` (whose class, as written
with a doubled backslash, also admits a literal backslash character),
returning `f"{group}-dong"`; otherwise the empty string. -/
def extract_dong (text : String) : String :=
  if text = "" then ""
  else
    match searchHangulGroup '동' text.toList with
    | some g => g
    | none =>
      match
        searchClassSuffix (fun c => isAlphaAZ c || c = '\\' || c = '-')
          "-dong".toList text.toList with
      | some g => g ++ "-dong"
      | none => ""

/-- Translation of `extract_dong_from_place` (src/app.py lines 777-785):
address first, then the name. -/
def extract_dong_from_place (p : Place) : String :=
  let dong := extract_dong (p.address.getD "")
  if dong = "" then extract_dong p.name else dong

/-- Translation of `_ensure_place_id` (src/app.py lines 863-868): a
truthy `place_id` is kept, otherwise `sha1(f"{name}|{address}")` — note
the f-string renders a `None` address as the literal `"None"` (the
source uses `p.get('address','')`, whose default only applies to a
missing key, not to a stored `None`). -/
def _ensure_place_id (sha1hex : String → String) (p : Place) : String :=
  if p.place_id ≠ "" then p.place_id
  else sha1hex (p.name ++ "|" ++
    (match p.address with | some a => a | none => "None"))

/-- A master-pool candidate: the normalized place plus the fields
`build_master_pool` adds (`center`, `score`, the rewritten `place_id`
and `area`). -/
structure PoolItem where
  place_id : String
  name : String
  area : String
  address : Option String
  gu : Option String
  tags : List String
  description : Option String
  homepage_url : Option String
  lat : Option ℚ
  lng : Option ℚ
  center : ℚ × ℚ
  score : ℚ
deriving DecidableEq

/-- Translation of `_score_place` (src/app.py lines 871-890): the
item's name, tags and description are joined (a `None` description
renders as `"None"`), lowercased, and each matching user token adds 0.4
while each matching extra keyword (lowercased) adds 0.2. -/
def _score_place (it : PoolItem) (user_tokens extra_keywords : List String) :
    ℚ :=
  let text := pyLower (it.name ++ " " ++ intercalateList " " it.tags ++ " " ++
    (match it.description with | some d => d | none => "None"))
  let s1 := user_tokens.foldl
    (fun sc k => if k ≠ "" && strContains text k then sc + 0.4 else sc) 0.0
  extra_keywords.foldl
    (fun sc k => if k ≠ "" && strContains text (pyLower k) then sc + 0.2
                 else sc) s1

/-- Stable descending insertion by score: an element is placed after
every earlier element of greater-or-equal score, which is exactly the
order `list.sort(key=score, reverse=True)` (a stable sort) produces. -/
def insertByScoreDesc (x : PoolItem) : List PoolItem → List PoolItem
  | [] => [x]
  | y :: t => if y.score < x.score then x :: y :: t else y :: insertByScoreDesc x t

/-- Stable descending sort by score (Python's stable `sort` with
`reverse=True`). -/
def sortByScoreDesc (l : List PoolItem) : List PoolItem :=
  l.foldl (fun acc x => insertByScoreDesc x acc) []

/-- Translation of `build_master_pool` (src/app.py lines 893-931).
Filters: excluded places, places without a Hangul dong, places with a
non-Hangul non-empty name.  Each surviving place gets its `place_id`
ensured, its `area` set to the dong, a `center` (with a City-Hall
default), and a keyword score; a jitter of `rng.random() * 0.01` seeded
with `abs(hash(user_text)) % 10000` is added to every score, and the
pool is sorted by score, descending and stable.  `pyHash` abstracts
Python's process-seeded string `hash`; `randomStream seed i` abstracts
the `i`-th draw of `random.Random(seed)`. -/
def build_master_pool (sha1hex : String → String) (pyHash : String → ℤ)
    (randomStream : ℕ → ℕ → ℚ) (places : List Place) (user_text : String)
    (extra_keywords : List String) : List PoolItem :=
  let user_tokens := tokenize_korean_keywords user_text
  let pool := places.filterMap fun p =>
    let name := pyStrip p.name
    let address := pyStrip (p.address.getD "")
    if is_excluded_place name address then none
    else
      let dong := extract_dong_from_place p
      if dong = "" then none
      else if !is_korean_text dong then none
      else if name ≠ "" && !is_korean_text name then none
      else
        let item : PoolItem :=
          { place_id := _ensure_place_id sha1hex p, name := p.name,
            area := dong, address := p.address, gu := p.gu, tags := p.tags,
            description := p.description, homepage_url := p.homepage_url,
            lat := p.lat, lng := p.lng,
            center :=
              match p.lat, p.lng with
              | some la, some ln => (la, ln)
              | _, _ => (37.5665, 126.9780),
            score := 0 }
        some { item with score := _score_place item user_tokens extra_keywords }
  let seed := (pyHash user_text).natAbs % 10000
  let jittered := pool.enum.map
    (fun pr => { pr.2 with score := pr.2.score + randomStream seed pr.1 * 0.01 })
  sortByScoreDesc jittered

/-- C8: `build_master_pool` is deterministic for fixed inputs — in
particular its only dependence on ambient process state is the string
hash seeding the jitter, so two calls in the same process (same `hash`
value on `user_text`, same `random.Random` stream for that seed) produce
the same candidates with the same scores, jitter included, in the same
order. -/
theorem build_master_pool_deterministic (sh : String → String)
    (h1 h2 : String → ℤ) (rs : ℕ → ℕ → ℚ) (places : List Place)
    (ut : String) (ek : List String) (hh : h1 ut = h2 ut) :
    build_master_pool sh h1 rs places ut ek =
    build_master_pool sh h2 rs places ut ek := by
  unfold build_master_pool
  rw [hh]

/-- Witness for C8: two distinct hash functions that agree on the query
text produce identical pools on a concrete place. -/
theorem build_master_pool_deterministic_witness :
    ((fun s : String => (s.length : ℤ)) "카페" = (fun _ : String => (2 : ℤ)) "카페") ∧
    build_master_pool shaStub (fun s => (s.length : ℤ)) (fun _ _ => 0)
      [⟨"p1", "인사동길", "인사동", some "서울 종로구 인사동", some "종로구", [],
        none, none, none, none⟩] "카페" [] =
    build_master_pool shaStub (fun _ => (2 : ℤ)) (fun _ _ => 0)
      [⟨"p1", "인사동길", "인사동", some "서울 종로구 인사동", some "종로구", [],
        none, none, none, none⟩] "카페" [] :=
  ⟨by decide,
   build_master_pool_deterministic shaStub (fun s => (s.length : ℤ))
     (fun _ => (2 : ℤ)) (fun _ _ => 0)
     [⟨"p1", "인사동길", "인사동", some "서울 종로구 인사동", some "종로구", [],
       none, none, none, none⟩] "카페" [] (by decide)⟩
